import Mathlib

/-!
Verification development for the QuestionCrafter backend
(src/backend/main.py).  The Python module is shallowly embedded:

* Python dicts become insertion-ordered association lists over `String`
  keys (`pyGet`, `pySet`, `pyGetD`, `dict_update` mirror `d.get`,
  `d[k] = v`, `d.get(k, default)` and `d.update`).
* The persona catalog (`personas_data["personas"]`) is a `Catalog`,
  an association list from persona name to a persona record, itself an
  association list from attribute name to a `PVal` (string or list
  value, matching the YAML shapes the code reads).
* `random.choice` is modelled by a tape of natural numbers: each call
  consumes one tape entry `r` and returns element `r % length` of a
  non-empty sequence, so a uniformly distributed tape entry yields a
  uniformly distributed catalog element; on an empty sequence it fails
  like the IndexError the library raises.
* The OpenAI calls are oracles.  The conversational chain of
  `improve_question` is an oracle from the accumulated transcript and
  the new prompt to a raw response (`Resp`, a string or a dict, as
  `get_content` distinguishes); `run_conversation` threads the
  transcript exactly as ConversationBufferMemory accumulates it.
* Fallible paths (`random.choice` on an empty list, `json.loads`
  failure on the rationale-repair response) are `Except`/`Option`.
-/

/-- Value stored under one key of a persona record: the YAML attribute
values the code touches are strings or lists of strings. -/
inductive PVal where
  | s (v : String)
  | l (v : List String)
deriving DecidableEq

/-- String content of a `PVal`; the code only reads `original_role` as
a string, and that key always holds one. -/
def PVal.asString : PVal → String
  | .s v => v
  | .l _ => ""

/-- Python `d.get(k)`: first binding of `k`, if any (dict keys are
unique, so the first binding is the binding). -/
def pyGet {β : Type} : List (String × β) → String → Option β
  | [], _ => none
  | (k', v) :: rest, k => if k' = k then some v else pyGet rest k

/-- Python `d.get(k, dflt)`. -/
def pyGetD {β : Type} (d : List (String × β)) (k : String) (dflt : β) : β :=
  (pyGet d k).getD dflt

/-- Python `d[k] = v`: overwrite in place when the key exists, append
otherwise (dict insertion order). -/
def pySet {β : Type} : List (String × β) → String → β → List (String × β)
  | [], k, v => [(k, v)]
  | (k', v') :: rest, k, v =>
    if k' = k then (k, v) :: rest else (k', v') :: pySet rest k v

/-- Python `base.update(add)`: every binding of `add` written into
`base`, left to right. -/
def dict_update {β : Type} (base add : List (String × β)) : List (String × β) :=
  add.foldl (fun d kv => pySet d kv.1 kv.2) base

/-- A persona record as loaded from `personas.yaml`. -/
abbrev Persona := List (String × PVal)

/-- The loaded catalog `personas_data["personas"]`. -/
abbrev Catalog := List (String × Persona)

/-- `get_all_persona_names` (main.py line 54): the keys of the loaded
catalog in declaration order. -/
def get_all_persona_names (catalog : Catalog) : List String :=
  catalog.map Prod.fst

/-- The key-by-key writes of `get_persona_definition` (main.py lines
72-77): `original_role` is set to the persona name, then each of the
five attribute keys is set to its current value or its default.  In
Python these writes land on the dict object itself. -/
def enrich_persona (persona_name : String) (persona : Persona) : Persona :=
  let p1 := pySet persona "original_role" (.s persona_name)
  let p2 := pySet p1 "core_expertise" (pyGetD p1 "core_expertise" (.l []))
  let p3 := pySet p2 "cognitive_approach" (pyGetD p2 "cognitive_approach" (.s ""))
  let p4 := pySet p3 "values_and_motivations" (pyGetD p3 "values_and_motivations" (.s ""))
  let p5 := pySet p4 "communication_style" (pyGetD p4 "communication_style" (.s ""))
  pySet p5 "notable_trait" (pyGetD p5 "notable_trait" (.s ""))

/-- `get_persona_definition` (main.py lines 60-79).  When the name is
in the catalog, `personas_data["personas"].get` returns the stored dict
object, so the writes of `enrich_persona` mutate the catalog entry:
the function returns both the record handed to the caller and the
catalog state after the call.  When the name is absent, `.get` returns
the fresh placeholder dict and the catalog is untouched. -/
def get_persona_definition (catalog : Catalog) (persona_name : String) :
    Persona × Catalog :=
  match pyGet catalog persona_name with
  | some persona =>
    let enriched := enrich_persona persona_name persona
    (enriched, pySet catalog persona_name enriched)
  | none =>
    (enrich_persona persona_name
      [("name", .s persona_name), ("role", .s "Unknown"),
       ("background", .s "No background available")], catalog)

/-- The list comprehension `[get_persona_definition(p) for p in
validated_personas]` (main.py line 174), with the catalog state
threaded through the successive mutating lookups. -/
def get_persona_definitions : Catalog → List String → List Persona × Catalog
  | catalog, [] => ([], catalog)
  | catalog, n :: ns =>
    let pc := get_persona_definition catalog n
    let rest := get_persona_definitions pc.2 ns
    (pc.1 :: rest.1, rest.2)

/-- `random.choice(seq)` with one tape entry `r`: element `r % length`
of a non-empty sequence, IndexError on an empty one. -/
def random_choice (seq : List String) (r : Nat) : Except String String :=
  match seq with
  | [] => .error "IndexError: Cannot choose from an empty sequence"
  | _ :: _ => .ok (seq.getD (r % seq.length) "")

/-- The loop body of `validate_persona_selection` (main.py lines
84-89) over an explicit list of valid names; only the invalid-name
branch consumes a tape entry, as only it calls `random.choice`. -/
def validate_go (valid_personas : List String) :
    List Nat → List String → Except String (List String)
  | _, [] => .ok []
  | tape, persona :: rest =>
    if persona ∈ valid_personas then
      (validate_go valid_personas tape rest).map (fun out => persona :: out)
    else
      match random_choice valid_personas (tape.headD 0) with
      | .error e => .error e
      | .ok c =>
        (validate_go valid_personas (tape.drop 1) rest).map (fun out => c :: out)

/-- `validate_persona_selection` (main.py lines 81-90): each selected
name is kept when it is a catalog name and otherwise replaced by a
random catalog name. -/
def validate_persona_selection (catalog : Catalog) (tape : List Nat)
    (selected_personas : List String) : Except String (List String) :=
  validate_go (get_all_persona_names catalog) tape selected_personas

/-- A raw response value as `get_content` inspects it: a plain string
or a dict of string fields. -/
inductive Resp where
  | str (s : String)
  | dict (m : List (String × String))
deriving DecidableEq

/-- Python `str(...)` rendering of a response, used by the fallback
branch of `get_content` (braces written as escapes). -/
def pyStr : Resp → String
  | .str s => s
  | .dict m =>
    "\x7b" ++
      String.intercalate ", "
        (m.map (fun kv => "\x27" ++ kv.1 ++ "\x27: \x27" ++ kv.2 ++ "\x27")) ++
      "\x7d"

/-- `get_content` (main.py lines 95-103): a plain string is returned
as is; a dict yields its "response" field, else its "output" field,
else the string rendering of the whole value. -/
def get_content (response : Resp) : String :=
  match response with
  | .str s => s
  | .dict m =>
    match pyGet m "response" with
    | some v => v
    | none =>
      match pyGet m "output" with
      | some v => v
      | none => pyStr response

/-- The selection parsed from the first generation call of
`select_personas` (main.py lines 162-170): the three persona fields,
and the rationale field, `some` when the parsed value is a dict and
`none` otherwise (the code replaces a non-dict rationale by the empty
dict, main.py lines 177-180). -/
structure ParsedSelection where
  persona1 : String
  persona2 : String
  persona3 : String
  rationale : Option (List (String × String))
deriving DecidableEq

/-- One entry of the `personas` list of the response built at main.py
lines 213-228: the attribute values read off the enriched persona
record plus the rationale string. -/
structure SelectedPersona where
  name : PVal
  role : PVal
  background : PVal
  core_expertise : PVal
  cognitive_approach : PVal
  values_and_motivations : PVal
  communication_style : PVal
  notable_trait : PVal
  rationale : String
deriving DecidableEq

/-- Outcome of the `select_personas` handler after the first call was
parsed: the response payload, and the `personas` argument string of
the rationale-repair call when one was issued (`none` when not). -/
structure SelectPersonasResult where
  personas : List SelectedPersona
  repair_personas_arg : Option String
deriving DecidableEq

/-- Number of generation calls the handler issued: the selection call,
plus the repair call when one was made. -/
def generation_call_count (r : SelectPersonasResult) : Nat :=
  1 + (match r.repair_personas_arg with | some _ => 1 | none => 0)

/-- The template `missing_rationale_prompt` of main.py lines 188-198,
formatted with the question and the joined missing names. -/
def missing_rationale_prompt (question personas : String) : String :=
  "\nFor the following question: " ++ question ++
  "\n\nProvide a clear and specific rationale for selecting each of these personas:\n" ++
  personas ++
  "\n\nYour response must be a dictionary where each key is a persona name and the value is the rationale.\n"

/-- The per-persona entry of the response dict built at main.py lines
215-225: each field read off the enriched persona record with the
default of the code, and the rationale looked up under the record
member `original_role` with the sentinel default. -/
def build_selected_persona (final_rationales : List (String × String))
    (persona : Persona) : SelectedPersona :=
  { name := pyGetD persona "name" (.s "Unknown")
    role := pyGetD persona "role" (.s "Unknown")
    background := pyGetD persona "background" (.s "No background available")
    core_expertise := pyGetD persona "core_expertise" (.l [])
    cognitive_approach := pyGetD persona "cognitive_approach" (.s "")
    values_and_motivations := pyGetD persona "values_and_motivations" (.s "")
    communication_style := pyGetD persona "communication_style" (.s "")
    notable_trait := pyGetD persona "notable_trait" (.s "")
    rationale := (pyGet final_rationales
        (pyGetD persona "original_role" (.s "")).asString).getD
        "Error: No rationale provided" }

/-- The `select_personas` handler from the point where the first
generation call has been parsed (main.py lines 170-231).  `tape`
feeds `random.choice`; `repair` is the secondary generation call
composed with `json.loads`, `none` modelling a JSONDecodeError (which
the code turns into the 500 "Error generating complete rationales"). -/
def select_personas (catalog : Catalog) (tape : List Nat) (question : String)
    (selection : ParsedSelection)
    (repair : String → String → Option (List (String × String))) :
    Except String SelectPersonasResult :=
  let selected_personas := [selection.persona1, selection.persona2, selection.persona3]
  match validate_persona_selection catalog tape selected_personas with
  | .error e => .error e
  | .ok validated_personas =>
    let selected_persona_definitions := (get_persona_definitions catalog validated_personas).1
    let rationales := selection.rationale.getD []
    let missing_rationales := validated_personas.filter (fun p => (pyGet rationales p).isNone)
    let repaired : Except String (List (String × String) × Option String) :=
      match missing_rationales with
      | [] => .ok (rationales, none)
      | _ :: _ =>
        match repair question (String.intercalate ", " missing_rationales) with
        | some additional_rationales =>
          .ok (dict_update rationales additional_rationales,
               some (String.intercalate ", " missing_rationales))
        | none => .error "Error generating complete rationales"
    match repaired with
    | .error e => .error e
    | .ok (final_rationales, repair_arg) =>
      .ok { personas := selected_persona_definitions.map (build_selected_persona final_rationales)
            repair_personas_arg := repair_arg }

/-- Template of `prompt_1` (main.py lines 271-292), formatted with the
persona block and the question (main.py line 294). -/
def prompt_1_template (selected_personas question : String) : String :=
  "\n" ++
  "You are a QuestionImprover reasoning agent using three unique, specified personas to reason collectively step by step to ultimately provide\n" ++
  "the best possible quality improvement to a given question by arriving at a synthesized improved version of the question.\n" ++
  "\n" ++
  "To begin with, allow each persona to share their initial insights about the following question.\n" ++
  "Detail your perspective, drawing on specific knowledge, experiences, and pioneering concepts from your field.\n" ++
  "Aim to uncover new angles and dimensions of the question, demonstrating how your unique expertise contributes\n" ++
  "to a multifaceted understanding. In subsequent prompts, we\x27ll engage in a collaborative process where these\n" ++
  "perspectives are woven into an intricate network of thoughts. Later in the conversation, we\x27ll highlight how\n" ++
  "each viewpoint complements or challenges the others, constructing a more multidimensional and higher quality question\n" ++
  "to pose back to the user who asked the initial question.\n" ++
  "\n" ++
  "The personas are:\n" ++
  selected_personas ++ "\n" ++
  "\n" ++
  "The question is: " ++ question ++ "\n" ++
  "\n" ++
  "Please output each persona\x27s individual initial response to the question on a new line.\n"

/-- `prompt_2` (main.py lines 298-303): static text. -/
def prompt_2 : String :=
  "\n" ++
  "Adopt a critical lens. Evaluate and challenge your own initial analysis and the analyses provided by your peers.\n" ++
  "As each expert, critically examine the collective insights thus far, aiming not just to critique but to enrich and expand upon them.\n" ++
  "This process should delve into identifying underlying assumptions, potential biases, and areas where further exploration\n" ++
  "could yield significant insights, thereby enhancing the collective understanding.\n"

/-- `prompt_3` (main.py lines 308-314): static text. -/
def prompt_3 : String :=
  "\n" ++
  "Reflect on the critiques received, and adapt your perspectives accordingly.\n" ++
  "This prompt is about evolution and expansion of thought, where you reassess and reformulate ideas,\n" ++
  "creating a more nuanced and comprehensive network of interconnected ideas and insights in relation to the question.\n" ++
  "\n" ++
  "Prioritize assertions that are well-supported, constructive and resilient to scrutiny.\n"

/-- `prompt_4` (main.py lines 319-328): static text. -/
def prompt_4 : String :=
  "\n" ++
  "In this stage, weave a network of thoughts by integrating critiques and alternative perspectives.\n" ++
  "Focus on how new ideas can interconnect with and enhance existing thoughts.\n" ++
  "Explore the potential of novel concepts to form new nodes in this thought network.\n" ++
  "\n" ++
  "Push the boundaries of conventional thinking. Each persona explores new, divergent ideas, stimulated by the feedback loop.\n" ++
  "Critically assess how these ideas not only address previous criticisms but also contribute fresh insights,\n" ++
  "creating a richer and more intricate web of understanding, or introducing new dimensions to the question.\n" ++
  "Consider pivoting to new lines of reasoning that promise to add valuable connections to this evolving thought network.\n"

/-- `prompt_5` (main.py lines 333-344): an f-string carrying the
current question text. -/
def prompt_5 (question : String) : String :=
  "\n" ++
  "Now, it\x27s time for each expert to finalize their thoughts and converge on a best answer.\n" ++
  "Synthesize the insights and critiques into a coherent individual conclusion.\n" ++
  "\n" ++
  "Reflect on the entire dialogue, considering how each criticism was addressed and how your thoughts evolved.\n" ++
  "Your answer should not only represent your strongest position but also acknowledge and integrate valid and useful\n" ++
  "insights from the other expert perspectives.\n" ++
  "\n" ++
  "Based on all this, as each expert, what is the single best answer to the initial question: " ++ question ++ "?\n" ++
  "\n" ++
  "Format the output with persona\x27s name, title, and final answer.\n"

/-- `prompt_6` (main.py lines 349-359): static text. -/
def prompt_6 : String :=
  "\n" ++
  "Facilitate a synthesis of the individual experts\x27 answers to forge a unified, comprehensive response\n" ++
  "that combines the best elements from each persona\x27s insights.\n" ++
  "This response should be a testament to the depth and complexity of the thought network,\n" ++
  "showcasing how diverse perspectives can coalesce into a singular, insightful narrative.\n" ++
  "\n" ++
  "The synthesized answer should not be formulated in explicit terms specific to each persona\x27s own definition or agenda,\n" ++
  "but rather it should be phrased in a way that seeks to inspire and uncover broad, general, deeper truths,\n" ++
  "regardless of what personas happened to be involved in this discussion.\n" ++
  "A great answer will transcend the limited view of any one expert.\n"

/-- `prompt_7` (main.py lines 367-402): an f-string carrying the
current question text. -/
def prompt_7 (question : String) : String :=
  "\n" ++
  "As we conclude our collaborative journey and after thorough analysis and reflection on the entire discussion,\n" ++
  "let\x27s now focus on the final objective - to vastly elevate the original question into a more insightful and universally engaging form.\n" ++
  "\n" ++
  "After going through the following thoughts, please take a deep breath and generate a far higher quality version of the original question.\n" ++
  "\n" ++
  "Reformulate the initial question by weaving in the rich insights gained through this networked reasoning process.\n" ++
  "\n" ++
  "The new question should be deeper, clearer, and designed to catalyze more curiosity and invite more comprehensive exploration.\n" ++
  "\n" ++
  "Here are some thoughts to consider before you propose an improved version of the question:\n" ++
  "\n" ++
  "1. Clarify and Focus: Examine the original question\x27s wording and structure.\n" ++
  "Refine it for clarity and focus, removing any ambiguities or vague terms.\n" ++
  "How can we make the question more precise and direct?\n" ++
  "\n" ++
  "2. Deepen the Inquiry: Expand the scope of the question to incorporate the key insights and perspectives that emerged during the discussion.\n" ++
  "How can the question be rephrased to encourage deeper exploration of these insights?\n" ++
  "Remove any unhelpful superficialities or false dichotomies present in the original question.\n" ++
  "\n" ++
  "3. Encourage Comprehensive Engagement: Modify the question to stimulate more comprehensive and thoughtful responses.\n" ++
  "Think about how the question can invite diverse relevant viewpoints and interdisciplinary thinking.\n" ++
  "\n" ++
  "4. Maintain Open-Endedness: Ensure that the revised question remains open-ended and thought-provoking.\n" ++
  "It should encourage a range of responses, facilitating a fruitful and ongoing discussion.\n" ++
  "The improved question should not be re-formulated in terms specific to the persona\x27s own definition or agenda,\n" ++
  "but rather it should be phrased in a way that seeks to inspire and uncover broad, general, deeper truths,\n" ++
  "regardless of what kinds people and personas explore this question in the future.\n" ++
  "\n" ++
  "5. Reflect on Potential for Rich Dialogue: Contemplate the key aspects of the topic that could lead to richer dialogue.\n" ++
  "How can the question be framed to explore these aspects more thoroughly and inspirationally?\n" ++
  "\n" ++
  "As a reminder, the original question was " ++ question ++ "\n" ++
  "\n" ++
  "Please provide only the improved question in your response.\n"

/-- `prompt_8` (main.py lines 408-411): static text. -/
def prompt_8 : String :=
  "\n" ++
  "Provide a brief summary of this entire conversation so far, highlighting any major insights and/or turning points,\n" ++
  "if interesting to a curious human user who wants to read the conversation\x27s evolution and highlights in just a paragraph.\n"

/-- `prompt_9` (main.py lines 417-421): static text. -/
def prompt_9 : String :=
  "\n" ++
  "Generate a concise rationale for this refinement: briefly articulate why this new version is a\n" ++
  "significantly higher quality and more effective question.\n" ++
  "In contrast, include the most salient weaknesses or limitations in the way the original question was formulated.\n"

/-- `prompt_10` (main.py lines 427-430): static text. -/
def prompt_10 : String :=
  "\n" ++
  "Identify a fundamental principle that all personas can agree upon.\n" ++
  "How did this shared foundation influence the collective reasoning process?\n"

/-- `prompt_11` (main.py lines 433-437): static text. -/
def prompt_11 : String :=
  "\n" ++
  "Using a synthesized perspective, help the person who asked the initial question to explore new and related dimensions:\n" ++
  "**Potential Exploration Pathways**: Offer possible directions or sub-questions for further exploration based on the enhanced question. This helps to spark more specific avenues of inquiry.\n" ++
  "**Further Reading/Resources**: Include links or references to relevant literature, articles, people of interest, or studies that can provide more context or information related to the enhanced question.\n"

/-- One persona entry of the `/improve-question` request body, with
the fields the handler reads (main.py lines 247-258). -/
structure RequestPersona where
  name : String
  role : String
  background : String
  core_expertise : List String
  cognitive_approach : String
  values_and_motivations : String
  communication_style : String
  notable_trait : String
  rationale : String
deriving DecidableEq

/-- The per-persona f-string of `persona_info` (main.py lines 248-256). -/
def format_request_persona (persona : RequestPersona) : String :=
  "Name: " ++ persona.name ++ "\n" ++
  "Role: " ++ persona.role ++ "\n" ++
  "Background: " ++ persona.background ++ "\n" ++
  "Core Expertise: " ++ String.intercalate ", " persona.core_expertise ++ "\n" ++
  "Cognitive Approach: " ++ persona.cognitive_approach ++ "\n" ++
  "Values and Motivations: " ++ persona.values_and_motivations ++ "\n" ++
  "Communication Style: " ++ persona.communication_style ++ "\n" ++
  "Notable Trait: " ++ persona.notable_trait ++ "\n" ++
  "Rationale for Selection: " ++ persona.rationale

/-- `persona_info` (main.py line 247): the persona blocks joined by a
blank line. -/
def persona_info (personas : List RequestPersona) : String :=
  String.intercalate "\n\n" (personas.map format_request_persona)

/-- The generation client behind `conversation.invoke`: from the
accumulated transcript (the ConversationBufferMemory turns, each a
prompt paired with the stored response text) and the new prompt to the
raw response value. -/
abbrev GenOracle := List (String × String) → String → Resp

/-- The eleven prompts of the refinement session in stage order, as
built by `improve_question` for a question and a formatted persona
block. -/
def stage_prompts (question : String) (selected_personas : String) : List String :=
  [prompt_1_template selected_personas question,
   prompt_2, prompt_3, prompt_4,
   prompt_5 question, prompt_6,
   prompt_7 question,
   prompt_8, prompt_9, prompt_10, prompt_11]

/-- The sequence of `conversation.invoke` calls: each call sees the
transcript of all prior turns, its extracted response text is appended
to the transcript, and the next prompt is only issued with that
response in place.  Returns the (prompt, response text) turns. -/
def run_conversation (oracle : GenOracle) :
    List (String × String) → List String → List (String × String)
  | _, [] => []
  | history, prompt :: rest =>
    let response := get_content (oracle history prompt)
    (prompt, response) :: run_conversation oracle (history ++ [(prompt, response)]) rest

/-- The full transcript of one `/improve-question` request: the eleven
stage prompts run against a fresh ConversationBufferMemory. -/
def session_trace (oracle : GenOracle) (question : String)
    (personas : List RequestPersona) : List (String × String) :=
  run_conversation oracle [] (stage_prompts question (persona_info personas))

/-- The response record of `/improve-question` (main.py lines 441-449). -/
structure RefinementResult where
  improved_question : String
  final_answer : String
  summary : String
  rationale : String
  harmony_principle : String
  new_dimensions : String
  individual_answers : String
deriving DecidableEq

/-- `improve_question` (main.py lines 239-449): the eleven sequential
`conversation.invoke` calls, each response extracted with
`get_content` and appended to the conversation memory, and the
response record built from the retained stage outputs. -/
def improve_question (oracle : GenOracle) (question : String)
    (personas : List RequestPersona) : RefinementResult :=
  let info := persona_info personas
  let h0 : List (String × String) := []
  let prompt_one := prompt_1_template info question
  let first := get_content (oracle h0 prompt_one)
  let h1 := h0 ++ [(prompt_one, first)]
  let second := get_content (oracle h1 prompt_2)
  let h2 := h1 ++ [(prompt_2, second)]
  let third := get_content (oracle h2 prompt_3)
  let h3 := h2 ++ [(prompt_3, third)]
  let fourth := get_content (oracle h3 prompt_4)
  let h4 := h3 ++ [(prompt_4, fourth)]
  let fifth := get_content (oracle h4 (prompt_5 question))
  let h5 := h4 ++ [(prompt_5 question, fifth)]
  let sixth := get_content (oracle h5 prompt_6)
  let h6 := h5 ++ [(prompt_6, sixth)]
  let improved := get_content (oracle h6 (prompt_7 question))
  let h7 := h6 ++ [(prompt_7 question, improved)]
  let eighth := get_content (oracle h7 prompt_8)
  let h8 := h7 ++ [(prompt_8, eighth)]
  let ninth := get_content (oracle h8 prompt_9)
  let h9 := h8 ++ [(prompt_9, ninth)]
  let tenth := get_content (oracle h9 prompt_10)
  let h10 := h9 ++ [(prompt_10, tenth)]
  let eleventh := get_content (oracle h10 prompt_11)
  { improved_question := improved
    final_answer := sixth
    summary := eighth
    rationale := ninth
    harmony_principle := tenth
    new_dimensions := eleventh
    individual_answers := fifth }

/-- The retained-stage map of the response record: field k of the
result is the response text of the matching stage (stages numbered
from 1, list indices from 0), so the record reads only the texts of
stages 5 to 11. -/
def extract_result (texts : List String) : RefinementResult :=
  { improved_question := texts.getD 6 ""
    final_answer := texts.getD 5 ""
    summary := texts.getD 7 ""
    rationale := texts.getD 8 ""
    harmony_principle := texts.getD 9 ""
    new_dimensions := texts.getD 10 ""
    individual_answers := texts.getD 4 "" }

theorem pyGet_pySet {β : Type} (d : List (String × β)) (k' k : String) (v : β) :
    pyGet (pySet d k' v) k = if k = k' then some v else pyGet d k := by
  induction d with
  | nil =>
    by_cases h : k = k'
    · simp [pySet, pyGet, h]
    · simp [pySet, pyGet, h, Ne.symm h]
  | cons kv rest ih =>
    obtain ⟨k0, v0⟩ := kv
    by_cases h0 : k0 = k'
    · subst h0
      by_cases h : k = k0
      · simp [pySet, pyGet, h]
      · simp [pySet, pyGet, h, Ne.symm h]
    · by_cases h1 : k0 = k
      · subst h1
        simp [pySet, pyGet, h0, Ne.symm h0, ih]
      · simp [pySet, pyGet, h0, h1, ih]

theorem map_fst_pySet {β : Type} (d : List (String × β)) (k : String) (v : β)
    (h : (pyGet d k).isSome) :
    (pySet d k v).map Prod.fst = d.map Prod.fst := by
  induction d with
  | nil => simp [pyGet] at h
  | cons kv rest ih =>
    obtain ⟨k0, v0⟩ := kv
    simp only [pySet]
    by_cases h0 : k0 = k
    · simp [h0]
    · simp only [if_neg h0, List.map_cons]
      simp only [pyGet, if_neg h0] at h
      rw [ih h]

theorem getD_mem {α : Type} : ∀ (l : List α) (i : Nat) (d : α),
    i < l.length → l.getD i d ∈ l
  | a :: l, 0, _, _ => List.mem_cons_self a l
  | a :: l, i + 1, d, h =>
    List.mem_cons_of_mem a (getD_mem l i d (by simpa using Nat.lt_of_succ_lt_succ h))

theorem pyGet_enrich (persona_name : String) (p : Persona) (k : String) :
    pyGet (enrich_persona persona_name p) k =
      if k = "original_role" then some (.s persona_name)
      else if k = "core_expertise" then some (pyGetD p "core_expertise" (.l []))
      else if k = "cognitive_approach" then some (pyGetD p "cognitive_approach" (.s ""))
      else if k = "values_and_motivations" then some (pyGetD p "values_and_motivations" (.s ""))
      else if k = "communication_style" then some (pyGetD p "communication_style" (.s ""))
      else if k = "notable_trait" then some (pyGetD p "notable_trait" (.s ""))
      else pyGet p k := by
  simp only [enrich_persona, pyGet_pySet, pyGetD]
  by_cases h1 : k = "original_role" <;>
    by_cases h2 : k = "core_expertise" <;>
      by_cases h3 : k = "cognitive_approach" <;>
        by_cases h4 : k = "values_and_motivations" <;>
          by_cases h5 : k = "communication_style" <;>
            by_cases h6 : k = "notable_trait" <;>
  simp_all

theorem mem_getD {α : Type} : ∀ (l : List α) (c d : α),
    c ∈ l → ∃ j, j < l.length ∧ l.getD j d = c
  | a :: l, c, d, h => by
    rcases List.mem_cons.mp h with h | h
    · exact ⟨0, Nat.succ_pos _, by simp [h]⟩
    · obtain ⟨j, hj, hg⟩ := mem_getD l c d h
      exact ⟨j + 1, Nat.succ_lt_succ hj, by simpa using hg⟩

theorem validate_go_ok (v0 : String) (vs sel : List String) :
    ∀ tape, ∃ out, validate_go (v0 :: vs) tape sel = .ok out ∧
      out.length = sel.length ∧
      (∀ x ∈ out, x ∈ v0 :: vs) ∧
      (∀ i, i < sel.length → sel.getD i "" ∈ v0 :: vs → out.getD i "" = sel.getD i "") := by
  induction sel with
  | nil => exact fun tape => ⟨[], rfl, rfl, by simp, by simp⟩
  | cons p ps ih =>
    intro tape
    by_cases hp : p ∈ v0 :: vs
    · obtain ⟨out, hout, hlen, hmem, hpos⟩ := ih tape
      refine ⟨p :: out, ?_, by simp [hlen], ?_, ?_⟩
      · simp [validate_go, hp, hout, Except.map]
      · intro x hx
        rcases List.mem_cons.mp hx with h | h
        · exact h ▸ hp
        · exact hmem x h
      · intro i hi hm
        cases i with
        | zero => simp
        | succ j =>
          simp only [List.getD_cons_succ] at hm ⊢
          exact hpos j (by simpa using Nat.lt_of_succ_lt_succ hi) hm
    · obtain ⟨out, hout, hlen, hmem, hpos⟩ := ih tape.tail
      have hc : (v0 :: vs).getD (tape.headD 0 % (v0 :: vs).length) "" ∈ v0 :: vs :=
        getD_mem _ _ _ (Nat.mod_lt _ (Nat.succ_pos _))
      refine ⟨(v0 :: vs).getD (tape.headD 0 % (v0 :: vs).length) "" :: out,
        ?_, by simp [hlen], ?_, ?_⟩
      · simp [validate_go, hp, random_choice, hout, Except.map]
      · intro x hx
        rcases List.mem_cons.mp hx with h | h
        · exact h ▸ hc
        · exact hmem x h
      · intro i hi hm
        cases i with
        | zero => simp only [List.getD_cons_zero] at hm; exact absurd hm hp
        | succ j =>
          simp only [List.getD_cons_succ] at hm ⊢
          exact hpos j (by simpa using Nat.lt_of_succ_lt_succ hi) hm

theorem validate_go_reach (v0 : String) (vs : List String) (sel : List String) :
    ∀ i, i < sel.length → sel.getD i "" ∉ v0 :: vs → ∀ c ∈ v0 :: vs,
      ∃ tape out, validate_go (v0 :: vs) tape sel = .ok out ∧ out.getD i "" = c := by
  induction sel with
  | nil => intro i hi; simp at hi
  | cons p ps ih =>
    intro i hi hinv c hc
    cases i with
    | zero =>
      simp only [List.getD_cons_zero] at hinv
      obtain ⟨j, hj, hgj⟩ := mem_getD (v0 :: vs) c "" hc
      obtain ⟨out, hout, -, -, -⟩ := validate_go_ok v0 vs ps ([] : List Nat)
      refine ⟨[j], c :: out, ?_, by simp⟩
      have hchoice : random_choice (v0 :: vs) j = .ok c := by
        show Except.ok ((v0 :: vs).getD (j % (v0 :: vs).length) "") = Except.ok c
        rw [Nat.mod_eq_of_lt hj, hgj]
      simp [validate_go, hinv, hchoice, hout, Except.map]
    | succ i' =>
      have hi' : i' < ps.length := by simpa using Nat.lt_of_succ_lt_succ hi
      have hinv' : ps.getD i' "" ∉ v0 :: vs := by simpa using hinv
      obtain ⟨tape, out, hout, hget⟩ := ih i' hi' hinv' c hc
      by_cases hp : p ∈ v0 :: vs
      · exact ⟨tape, p :: out, by simp [validate_go, hp, hout, Except.map], by simpa using hget⟩
      · refine ⟨0 :: tape, (v0 :: vs).getD (0 % (v0 :: vs).length) "" :: out, ?_, by simpa using hget⟩
        simp [validate_go, hp, random_choice, hout, Except.map]

theorem intercalate_singleton (s a : String) : String.intercalate s [a] = a := rfl

theorem run_conversation_length (oracle : GenOracle) :
    ∀ (prompts : List String) (history : List (String × String)),
      (run_conversation oracle history prompts).length = prompts.length := by
  intro prompts
  induction prompts with
  | nil => intro h; rfl
  | cons p ps ih => intro h; simp [run_conversation, ih]

theorem run_conversation_map_fst (oracle : GenOracle) :
    ∀ (prompts : List String) (history : List (String × String)),
      (run_conversation oracle history prompts).map Prod.fst = prompts := by
  intro prompts
  induction prompts with
  | nil => intro h; rfl
  | cons p ps ih => intro h; simp [run_conversation, ih]

theorem run_conversation_getD (oracle : GenOracle) :
    ∀ (prompts : List String) (history : List (String × String)) (i : Nat),
      i < prompts.length →
      (run_conversation oracle history prompts).getD i ("", "") =
        (prompts.getD i "",
         get_content (oracle (history ++ (run_conversation oracle history prompts).take i)
           (prompts.getD i ""))) := by
  intro prompts
  induction prompts with
  | nil => intro h i hi; simp at hi
  | cons p ps ih =>
    intro history i hi
    cases i with
    | zero => simp [run_conversation]
    | succ j =>
      have hj : j < ps.length := by simpa using Nat.lt_of_succ_lt_succ hi
      simp only [run_conversation, List.getD_cons_succ, List.take_succ_cons]
      rw [ih (history ++ [(p, get_content (oracle history p))]) j hj]
      rw [List.append_cons, List.append_assoc]
      simp

theorem get_persona_definition_original_role (catalog : Catalog) (n : String) :
    pyGet (get_persona_definition catalog n).1 "original_role" = some (.s n) := by
  unfold get_persona_definition
  cases h : pyGet catalog n <;> simp [pyGet_enrich]

theorem get_persona_definitions_original_roles (names : List String) :
    ∀ catalog : Catalog,
      ((get_persona_definitions catalog names).1).map
        (fun p => (pyGetD p "original_role" (.s "")).asString) = names := by
  induction names with
  | nil => intro c; rfl
  | cons n ns ih =>
    intro c
    simp only [get_persona_definitions, List.map_cons]
    rw [ih (get_persona_definition c n).2]
    simp only [pyGetD]
    rw [get_persona_definition_original_role]
    rfl

theorem build_selected_rationales (final_rationales : List (String × String))
    (definitions : List Persona) :
    (definitions.map (build_selected_persona final_rationales)).map
        (fun sp => sp.rationale) =
      definitions.map (fun p =>
        (pyGet final_rationales (pyGetD p "original_role" (.s "")).asString).getD
          "Error: No rationale provided") := by
  simp [build_selected_persona]

/-- C7: content extraction yields the same text for a plain string,
for a dict wrapping it under "response", and for a dict wrapping it
under "output"; for a dict matching neither recognized shape it
returns the string rendering of the whole raw response. -/
theorem get_content_normalization :
    (∀ t : String, get_content (.str t) = t ∧
      get_content (.dict [("response", t)]) = t ∧
      get_content (.dict [("output", t)]) = t) ∧
    (∀ m : List (String × String),
      pyGet m "response" = none → pyGet m "output" = none →
      get_content (.dict m) = pyStr (.dict m)) := by
  constructor
  · intro t
    refine ⟨rfl, ?_, ?_⟩ <;> simp [get_content, pyGet]
  · intro m h1 h2
    simp [get_content, h1, h2]

/-- C6 counterexample: a catalog entry that lacks the `role` key is
returned by `get_persona_definition` still without a `role` key, so
the returned record does not carry every attribute field in all
cases. -/
theorem persona_lookup_missing_role_field :
    pyGet (get_persona_definition [("X", [])] "X").1 "role" = none := by rfl

/-- C6 (amended): `get_persona_definition` is total; an absent name
yields the placeholder with role "Unknown", background "No background
available" and the name; in every case the returned record carries
`original_role` and the five defaulted attribute fields, each set to
the default when the source record lacked it.  The `role` and
`background` keys, however, are only guaranteed on the placeholder. -/
theorem persona_lookup_never_fails (catalog : Catalog) (persona_name : String) :
    (pyGet catalog persona_name = none →
      pyGet (get_persona_definition catalog persona_name).1 "role" = some (.s "Unknown") ∧
      pyGet (get_persona_definition catalog persona_name).1 "background" =
        some (.s "No background available") ∧
      pyGet (get_persona_definition catalog persona_name).1 "name" = some (.s persona_name)) ∧
    (pyGet (get_persona_definition catalog persona_name).1 "core_expertise").isSome = true ∧
    (pyGet (get_persona_definition catalog persona_name).1 "cognitive_approach").isSome = true ∧
    (pyGet (get_persona_definition catalog persona_name).1 "values_and_motivations").isSome = true ∧
    (pyGet (get_persona_definition catalog persona_name).1 "communication_style").isSome = true ∧
    (pyGet (get_persona_definition catalog persona_name).1 "notable_trait").isSome = true ∧
    pyGet (get_persona_definition catalog persona_name).1 "original_role" =
      some (.s persona_name) ∧
    (∀ p0, pyGet catalog persona_name = some p0 →
      (pyGet p0 "core_expertise" = none →
        pyGet (get_persona_definition catalog persona_name).1 "core_expertise" = some (.l [])) ∧
      (pyGet p0 "cognitive_approach" = none →
        pyGet (get_persona_definition catalog persona_name).1 "cognitive_approach" = some (.s "")) ∧
      (pyGet p0 "values_and_motivations" = none →
        pyGet (get_persona_definition catalog persona_name).1 "values_and_motivations" = some (.s "")) ∧
      (pyGet p0 "communication_style" = none →
        pyGet (get_persona_definition catalog persona_name).1 "communication_style" = some (.s "")) ∧
      (pyGet p0 "notable_trait" = none →
        pyGet (get_persona_definition catalog persona_name).1 "notable_trait" = some (.s ""))) := by
  cases h : pyGet catalog persona_name with
  | none =>
    refine ⟨fun _ => ?_, ?_, ?_, ?_, ?_, ?_, ?_, fun p0 hp0 => absurd hp0 (by simp)⟩
    · refine ⟨?_, ?_, ?_⟩ <;>
        simp [get_persona_definition, h, pyGet_enrich, pyGetD, pyGet]
    · simp [get_persona_definition, h, pyGet_enrich]
    · simp [get_persona_definition, h, pyGet_enrich]
    · simp [get_persona_definition, h, pyGet_enrich]
    · simp [get_persona_definition, h, pyGet_enrich]
    · simp [get_persona_definition, h, pyGet_enrich]
    · simp [get_persona_definition, h, pyGet_enrich]
  | some p0 =>
    refine ⟨fun hn => absurd hn (by simp), ?_, ?_, ?_, ?_, ?_, ?_, ?_⟩
    · simp [get_persona_definition, h, pyGet_enrich]
    · simp [get_persona_definition, h, pyGet_enrich]
    · simp [get_persona_definition, h, pyGet_enrich]
    · simp [get_persona_definition, h, pyGet_enrich]
    · simp [get_persona_definition, h, pyGet_enrich]
    · simp [get_persona_definition, h, pyGet_enrich]
    · intro q hq
      injection hq with hq'
      subst hq'
      refine ⟨?_, ?_, ?_, ?_, ?_⟩ <;>
        intro hnone <;>
        simp [get_persona_definition, h, pyGet_enrich, pyGetD, hnone]

/-- C9 counterexample: looking up a persona that is present in the
catalog changes the stored catalog entry (the shared dict gains
`original_role` and the defaulted attribute keys), so request handling
does modify a loaded persona record. -/
theorem persona_lookup_mutates_catalog :
    (get_persona_definition [("X", [("role", PVal.s "R")])] "X").2 ≠
      [("X", [("role", PVal.s "R")])] := by decide

/-- C9 (amended): the catalog mutation performed by request handling
is confined to `get_persona_definition` on a present name, and it only
writes `original_role` and the missing defaulted attribute keys into
that one entry: the set and order of catalog names never changes, a
lookup of an absent name leaves the catalog untouched, other entries
are untouched, and every pre-existing attribute value other than
`original_role` keeps its value in the mutated record. -/
theorem catalog_mutation_scope (catalog : Catalog) (persona_name : String) :
    get_all_persona_names (get_persona_definition catalog persona_name).2 =
      get_all_persona_names catalog ∧
    (pyGet catalog persona_name = none →
      (get_persona_definition catalog persona_name).2 = catalog) ∧
    (∀ n, n ≠ persona_name →
      pyGet (get_persona_definition catalog persona_name).2 n = pyGet catalog n) ∧
    (∀ p0, pyGet catalog persona_name = some p0 →
      pyGet (get_persona_definition catalog persona_name).2 persona_name =
        some (enrich_persona persona_name p0) ∧
      ∀ k v, k ≠ "original_role" → pyGet p0 k = some v →
        pyGet (enrich_persona persona_name p0) k = some v) := by
  cases h : pyGet catalog persona_name with
  | none =>
    refine ⟨?_, fun _ => ?_, fun n hn => ?_, fun p0 hp0 => absurd hp0 (by simp)⟩ <;>
      simp [get_persona_definition, h]
  | some p0 =>
    refine ⟨?_, fun hn => absurd hn (by simp), fun n hn => ?_, fun q hq => ?_⟩
    · simp only [get_persona_definition, h, get_all_persona_names]
      exact map_fst_pySet catalog persona_name _ (by simp [h])
    · simp only [get_persona_definition, h]
      rw [pyGet_pySet]
      simp [hn]
    · injection hq with hq'
      subst hq'
      constructor
      · simp only [get_persona_definition, h]
        rw [pyGet_pySet]
        simp
      · intro k v hk hkv
        rw [pyGet_enrich]
        by_cases h2 : k = "core_expertise"
        · subst h2; simp [hk, pyGetD, hkv]
        by_cases h3 : k = "cognitive_approach"
        · subst h3; simp [hk, pyGetD, hkv]
        by_cases h4 : k = "values_and_motivations"
        · subst h4; simp [hk, pyGetD, hkv]
        by_cases h5 : k = "communication_style"
        · subst h5; simp [hk, pyGetD, hkv]
        by_cases h6 : k = "notable_trait"
        · subst h6; simp [hk, pyGetD, hkv]
        simp [hk, h2, h3, h4, h5, h6, hkv]

set_option maxRecDepth 100000 in
set_option maxHeartbeats 3200000 in
/-- C8 counterexample: the first stage prompt is templated with the
question text (and the persona block), so it is not true that the
prompts of all stages other than 5 and 7 are independent of the
request.  The two prompt lists below differ only in the question. -/
theorem first_stage_prompt_not_static :
    (stage_prompts "A" "P").getD 0 "" ≠ (stage_prompts "B" "P").getD 0 "" := by
  decide

set_option maxRecDepth 100000 in
set_option maxHeartbeats 3200000 in
/-- C8 (amended): the session issues eleven prompts; prompts 2, 3, 4,
6, 8, 9, 10 and 11 are static text independent of question and
personas, prompts 5 and 7 depend only on the question, and prompt 1 is
templated with both the question and the persona block. -/
theorem stage_prompt_templating (q q' info info' : String) :
    (stage_prompts q info).length = 11 ∧
    (∀ i, i ∈ ([1, 2, 3, 5, 7, 8, 9, 10] : List Nat) →
      (stage_prompts q info).getD i "" = (stage_prompts q' info').getD i "") ∧
    (stage_prompts q info).getD 4 "" = (stage_prompts q info').getD 4 "" ∧
    (stage_prompts q info).getD 6 "" = (stage_prompts q info').getD 6 "" ∧
    (stage_prompts q info).getD 0 "" = prompt_1_template info q ∧
    (stage_prompts q info).getD 4 "" = prompt_5 q ∧
    (stage_prompts q info).getD 6 "" = prompt_7 q := by
  refine ⟨rfl, ?_, (rfl : prompt_5 q = prompt_5 q), (rfl : prompt_7 q = prompt_7 q),
    (rfl : prompt_1_template info q = prompt_1_template info q),
    (rfl : prompt_5 q = prompt_5 q), (rfl : prompt_7 q = prompt_7 q)⟩
  intro i hi
  fin_cases hi
  · exact (rfl : prompt_2 = prompt_2)
  · exact (rfl : prompt_3 = prompt_3)
  · exact (rfl : prompt_4 = prompt_4)
  · exact (rfl : prompt_6 = prompt_6)
  · exact (rfl : prompt_8 = prompt_8)
  · exact (rfl : prompt_9 = prompt_9)
  · exact (rfl : prompt_10 = prompt_10)
  · exact (rfl : prompt_11 = prompt_11)

/-- C1: against a non-empty catalog, validation of a three-name
selection always succeeds and returns exactly three names, each a
catalog name; a selected name that is a catalog name is kept in its
position; and at a position whose selected name is not a catalog name,
every catalog name (including ones already selected, so duplicates are
possible) is a possible random substitute, uniformly indexed by the
random tape. -/
theorem validate_persona_selection_spec (catalog : Catalog) (selected : List String)
    (hcat : catalog ≠ []) (hlen : selected.length = 3) :
    (∀ tape, ∃ out, validate_persona_selection catalog tape selected = .ok out ∧
      out.length = 3 ∧
      (∀ x ∈ out, x ∈ get_all_persona_names catalog) ∧
      (∀ i, i < 3 → selected.getD i "" ∈ get_all_persona_names catalog →
        out.getD i "" = selected.getD i "")) ∧
    (∀ i, i < 3 → selected.getD i "" ∉ get_all_persona_names catalog →
      ∀ c ∈ get_all_persona_names catalog, ∃ tape out,
        validate_persona_selection catalog tape selected = .ok out ∧
        out.getD i "" = c) := by
  obtain ⟨nv, cat', rfl⟩ : ∃ nv cat', catalog = nv :: cat' := by
    cases catalog with
    | nil => exact absurd rfl hcat
    | cons a l => exact ⟨a, l, rfl⟩
  constructor
  · intro tape
    obtain ⟨out, hout, hl, hm, hp⟩ := validate_go_ok nv.1 (cat'.map Prod.fst) selected tape
    exact ⟨out, hout, by omega, hm, fun i hi => hp i (by omega)⟩
  · intro i hi hninv c hc
    obtain ⟨tape, out, hout, hget⟩ :=
      validate_go_reach nv.1 (cat'.map Prod.fst) selected i (by omega) hninv c hc
    exact ⟨tape, out, hout, hget⟩

/-- C1 witness: catalog with names A and B, selection [A, X, B]. -/
theorem validate_persona_selection_spec_witness :
    (∀ tape, ∃ out, validate_persona_selection [("A", []), ("B", [])] tape ["A", "X", "B"] = .ok out ∧
      out.length = 3 ∧
      (∀ x ∈ out, x ∈ get_all_persona_names [("A", []), ("B", [])]) ∧
      (∀ i, i < 3 → (["A", "X", "B"] : List String).getD i "" ∈
          get_all_persona_names [("A", []), ("B", [])] →
        out.getD i "" = (["A", "X", "B"] : List String).getD i "")) ∧
    (∀ i, i < 3 → (["A", "X", "B"] : List String).getD i "" ∉
        get_all_persona_names [("A", []), ("B", [])] →
      ∀ c ∈ get_all_persona_names [("A", []), ("B", [])], ∃ tape out,
        validate_persona_selection [("A", []), ("B", [])] tape ["A", "X", "B"] = .ok out ∧
        out.getD i "" = c) :=
  validate_persona_selection_spec [("A", []), ("B", [])] ["A", "X", "B"]
    (by decide) (by decide)

/-- C10: with the empty catalog (the fallback state after a failed
load), validation of any non-empty selection fails with the
IndexError of `random.choice` on an empty sequence at the first name,
returning no substituted result; with any non-empty catalog this error
branch is unreachable, as validation always returns a result. -/
theorem empty_catalog_validation (catalog : Catalog) (selected : List String)
    (hcat : catalog = []) (hsel : selected ≠ []) :
    (∀ tape, validate_persona_selection catalog tape selected =
      .error "IndexError: Cannot choose from an empty sequence") ∧
    (∀ catalog2 : Catalog, catalog2 ≠ [] → ∀ tape sel, ∃ out,
      validate_persona_selection catalog2 tape sel = .ok out) := by
  constructor
  · subst hcat
    intro tape
    cases selected with
    | nil => exact absurd rfl hsel
    | cons s rest =>
      simp [validate_persona_selection, get_all_persona_names, validate_go, random_choice]
  · intro catalog2 h2 tape sel
    cases catalog2 with
    | nil => exact absurd rfl h2
    | cons nv cat' =>
      obtain ⟨out, hout, -, -, -⟩ := validate_go_ok nv.1 (cat'.map Prod.fst) sel tape
      exact ⟨out, hout⟩

/-- C10 witness: the empty catalog with the one-name selection [X]. -/
theorem empty_catalog_validation_witness :
    (∀ tape, validate_persona_selection [] tape ["X"] =
      .error "IndexError: Cannot choose from an empty sequence") ∧
    (∀ catalog2 : Catalog, catalog2 ≠ [] → ∀ tape sel, ∃ out,
      validate_persona_selection catalog2 tape sel = .ok out) :=
  empty_catalog_validation [] ["X"] rfl (by decide)

theorem map_rationale_over_definitions (rats : List (String × String)) :
    ∀ (names : List String) (catalog : Catalog),
      ((get_persona_definitions catalog names).1).map (fun p =>
        (pyGet rats (pyGetD p "original_role" (.s "")).asString).getD
          "Error: No rationale provided") =
      names.map (fun nm => (pyGet rats nm).getD "Error: No rationale provided") := by
  intro names
  induction names with
  | nil => intro c; rfl
  | cons n ns ih =>
    intro c
    simp only [get_persona_definitions, List.map_cons]
    rw [ih (get_persona_definition c n).2]
    simp only [pyGetD]
    rw [get_persona_definition_original_role]
    rfl

/-- C4: when the rationale mapping parsed from the first generation
call already holds an entry for each of the three validated persona
names, the handler issues no rationale-repair call: the request makes
exactly one generation call. -/
theorem select_personas_no_repair (catalog : Catalog) (tape : List Nat) (question : String)
    (selection : ParsedSelection)
    (repair : String → String → Option (List (String × String)))
    (validated : List String)
    (hval : validate_persona_selection catalog tape
      [selection.persona1, selection.persona2, selection.persona3] = .ok validated)
    (hall : ∀ p ∈ validated, (pyGet (selection.rationale.getD []) p).isSome) :
    ∃ r, select_personas catalog tape question selection repair = .ok r ∧
      r.repair_personas_arg = none ∧ generation_call_count r = 1 := by
  have hfil : validated.filter
      (fun p => (pyGet (selection.rationale.getD []) p).isNone) = [] := by
    rw [List.filter_eq_nil_iff]
    intro a ha
    have h1 := hall a ha
    simp only [Option.isNone_iff_eq_none]
    intro hc
    rw [hc] at h1
    cases h1
  have heq : select_personas catalog tape question selection repair =
      .ok { personas := ((get_persona_definitions catalog validated).1).map
              (build_selected_persona (selection.rationale.getD []))
            repair_personas_arg := none } := by
    simp only [select_personas, hval, hfil]
  exact ⟨_, heq, rfl, rfl⟩

/-- C5: when exactly one of the three validated persona names is
missing from the parsed rationale mapping and the repair response
parses, the repair call is issued with exactly that one name as its
`personas` argument (so the request makes two generation calls), and
the result presents one rationale string per validated persona, taken
from the merged mapping with the sentinel "Error: No rationale
provided" exactly where the merged mapping still lacks an entry. -/
theorem select_personas_single_repair (catalog : Catalog) (tape : List Nat) (question : String)
    (selection : ParsedSelection)
    (repair : String → String → Option (List (String × String)))
    (validated : List String) (m : String) (add : List (String × String))
    (hval : validate_persona_selection catalog tape
      [selection.persona1, selection.persona2, selection.persona3] = .ok validated)
    (hmiss : validated.filter
      (fun p => (pyGet (selection.rationale.getD []) p).isNone) = [m])
    (hrep : repair question m = some add) :
    ∃ r, select_personas catalog tape question selection repair = .ok r ∧
      r.repair_personas_arg = some m ∧
      generation_call_count r = 2 ∧
      r.personas.map (fun sp => sp.rationale) = validated.map (fun p =>
        (pyGet (dict_update (selection.rationale.getD []) add) p).getD
          "Error: No rationale provided") := by
  have heq : select_personas catalog tape question selection repair =
      .ok { personas := ((get_persona_definitions catalog validated).1).map
              (build_selected_persona
                (dict_update (selection.rationale.getD []) add))
            repair_personas_arg := some m } := by
    simp only [select_personas, hval, hmiss, intercalate_singleton, hrep]
  refine ⟨_, heq, rfl, rfl, ?_⟩
  rw [build_selected_rationales, map_rationale_over_definitions]

/-- C4 witness: selection (A, B, A) against catalog names A, B with a
rationale entry for both names. -/
theorem select_personas_no_repair_witness :
    ∃ r, select_personas [("A", []), ("B", [])] [] "Q"
        ⟨"A", "B", "A", some [("A", "ra"), ("B", "rb")]⟩ (fun _ _ => none) = .ok r ∧
      r.repair_personas_arg = none ∧ generation_call_count r = 1 :=
  select_personas_no_repair [("A", []), ("B", [])] [] "Q"
    ⟨"A", "B", "A", some [("A", "ra"), ("B", "rb")]⟩ (fun _ _ => none)
    ["A", "B", "A"] (by rfl) (by decide)

/-- C5 witness: selection (A, B, A) with a rationale entry only for A,
so exactly B is missing, and a repair oracle that answers for B. -/
theorem select_personas_single_repair_witness :
    ∃ r, select_personas [("A", []), ("B", [])] [] "Q"
        ⟨"A", "B", "A", some [("A", "ra")]⟩
        (fun _ names => if names = "B" then some [("B", "rb")] else none) = .ok r ∧
      r.repair_personas_arg = some "B" ∧
      generation_call_count r = 2 ∧
      r.personas.map (fun sp => sp.rationale) =
        (["A", "B", "A"] : List String).map (fun p =>
          (pyGet (dict_update ((some [("A", "ra")] : Option (List (String × String))).getD [])
              [("B", "rb")]) p).getD
            "Error: No rationale provided") :=
  select_personas_single_repair [("A", []), ("B", [])] [] "Q"
    ⟨"A", "B", "A", some [("A", "ra")]⟩
    (fun _ names => if names = "B" then some [("B", "rb")] else none)
    ["A", "B", "A"] "B" [("B", "rb")] (by rfl) (by rfl) (by rfl)

set_option maxRecDepth 100000 in
/-- C2: a successful `/improve-question` request drives the stateful
conversation through exactly eleven generation calls, in the fixed
stage order, where call number i (counting from 0) is made with the
full transcript of the i prior turns as its conversational state and
its response is appended to that transcript before the next call; no
later call happens before an earlier response is in the transcript. -/
theorem refinement_session_eleven_calls (oracle : GenOracle) (question : String)
    (personas : List RequestPersona) :
    (session_trace oracle question personas).length = 11 ∧
    (session_trace oracle question personas).map Prod.fst =
      stage_prompts question (persona_info personas) ∧
    (∀ i, i < 11 →
      (session_trace oracle question personas).getD i ("", "") =
        ((stage_prompts question (persona_info personas)).getD i "",
         get_content (oracle
           ((session_trace oracle question personas).take i)
           ((stage_prompts question (persona_info personas)).getD i "")))) := by
  refine ⟨?_, ?_, ?_⟩
  · rw [session_trace, run_conversation_length]
    rfl
  · rw [session_trace, run_conversation_map_fst]
  · intro i hi
    have hlen : i < (stage_prompts question (persona_info personas)).length := by
      simpa [stage_prompts] using hi
    have h := run_conversation_getD oracle
      (stage_prompts question (persona_info personas)) [] i hlen
    rw [session_trace]
    simpa using h

set_option maxRecDepth 100000 in
/-- C3: the record returned by `improve_question` is exactly the
retained-stage extraction of the session transcript: its fields are
the response texts of stages 5 (individual answers), 6 (final
answer), 7 (improved question), 8 (summary), 9 (rationale), 10
(harmony principle) and 11 (new dimensions); and the extraction reads
none of the texts of stages 1 to 4, as two transcripts agreeing on
stages 5 to 11 extract to the same record. -/
theorem refinement_result_stage_map (oracle : GenOracle) (question : String)
    (personas : List RequestPersona) :
    improve_question oracle question personas =
      extract_result ((session_trace oracle question personas).map Prod.snd) ∧
    (∀ texts texts' : List String,
      (∀ i, 4 ≤ i → i ≤ 10 → texts.getD i "" = texts'.getD i "") →
      extract_result texts = extract_result texts') := by
  constructor
  · rfl
  · intro t t' h
    simp only [extract_result]
    rw [h 4 (by omega) (by omega), h 5 (by omega) (by omega), h 6 (by omega) (by omega),
      h 7 (by omega) (by omega), h 8 (by omega) (by omega), h 9 (by omega) (by omega),
      h 10 (by omega) (by omega)]
